import Mathlib

set_option linter.unusedVariables false

/-!
Verification development for the robot command layer of the Cozmo SDK
(`cozmo/robot.py`): the command facade methods, the state snapshot updated
by the periodic robot-state message, the status-flag properties, the
clamping performed by the `SetHeadAngle` and `SetLiftHeight` action
constructors, the off-charger context helper, the timed-behavior runner and
the busy/parallel submission policy of the action dispatcher.

Floating point quantities of the source are modelled as rationals, and the
wrapper classes `util.Angle` / `util.Distance` / `util.Speed` as the plain
rational they hold (angles are kept in degrees; the source stores radians,
an order-isomorphic change of unit).
-/

namespace Cozmo

/-- Severity levels of the SDK logger calls that appear in `robot.py`. -/
inductive LogLevel where
  | debug
  | info
  | warning
  | error
  deriving DecidableEq, Repr

/-- One emitted log record. -/
structure LogEntry where
  level : LogLevel
  message : String
  deriving DecidableEq, Repr

/-! Robot status bitmask values tested by the `Robot` status properties
(`robot.py` lines 692-765).
Modelled from the spec: the numeric values live in the generated clad
bindings (`_clad_to_game_cozmo.RobotStatusFlag`), which are not part of the
source tree; each flag is a distinct bit of the uint16 status word, in the
order the properties test them. -/
namespace RobotStatusFlag

def IS_MOVING : Nat := 0x1

def IS_CARRYING_BLOCK : Nat := 0x2

def IS_PICKING_OR_PLACING : Nat := 0x4

def IS_PICKED_UP : Nat := 0x8

def IS_FALLING : Nat := 0x10

def IS_ANIMATING : Nat := 0x20

def IS_PATHING : Nat := 0x40

def LIFT_IN_POS : Nat := 0x80

def HEAD_IN_POS : Nat := 0x100

def IS_ANIM_BUFFER_FULL : Nat := 0x200

def IS_ANIMATING_IDLE : Nat := 0x400

def IS_ON_CHARGER : Nat := 0x800

def IS_CHARGING : Nat := 0x1000

def CLIFF_DETECTED : Nat := 0x2000

def ARE_WHEELS_MOVING : Nat := 0x4000

end RobotStatusFlag

/-! Game status bitmask values (`_clad_to_game_cozmo.GameStatusFlag`).
Modelled from the spec: the generated clad bindings are not part of the
source tree; `IsLocalized` is a designated bit of the uint8 game status
word. -/
namespace GameStatusFlag

def IsLocalized : Nat := 0x1

end GameStatusFlag

/-- The pose value built by `_recv_msg_robot_state` from the message fields
(`util.Pose(x=..., y=..., z=..., q0=..., q1=..., q2=..., q3=...,
origin_id=msg.pose.originID)`). -/
structure Pose where
  x : ℚ
  y : ℚ
  z : ℚ
  q0 : ℚ
  q1 : ℚ
  q2 : ℚ
  q3 : ℚ
  originId : Nat
  deriving DecidableEq, Repr

/-- A 3-component vector (`util.Vector3`), used for the accelerometer and
gyro readings. -/
structure Vector3 where
  x : ℚ
  y : ℚ
  z : ℚ
  deriving DecidableEq, Repr

/-- The pose block of the periodic robot-state message. -/
structure PoseMsg where
  x : ℚ
  y : ℚ
  z : ℚ
  q0 : ℚ
  q1 : ℚ
  q2 : ℚ
  q3 : ℚ
  originID : Nat
  deriving DecidableEq, Repr

/-- The three-axis block (`msg.accel`, `msg.gyro`) of the robot-state
message. -/
structure TripleMsg where
  x : ℚ
  y : ℚ
  z : ℚ
  deriving DecidableEq, Repr

/-- The decoded periodic robot-state message, with the fields read by
`Robot._recv_msg_robot_state` (`robot.py` lines 868-891). -/
structure RobotStateMsg where
  pose : PoseMsg
  poseAngle_rad : ℚ
  posePitch_rad : ℚ
  headAngle_rad : ℚ
  leftWheelSpeed_mmps : ℚ
  rightWheelSpeed_mmps : ℚ
  liftHeight_mm : ℚ
  batteryVoltage : ℚ
  accel : TripleMsg
  gyro : TripleMsg
  carryingObjectID : Int
  carryingObjectOnTopID : Int
  headTrackingObjectID : Int
  localizedToObjectID : Int
  lastImageTimeStamp : Nat
  status : Nat
  gameStatus : Nat
  robotID : Nat
  deriving DecidableEq, Repr

/-- The kind (Python class) of an action constructed by one of the facade
command methods of `Robot`. -/
inductive ActionKind where
  | sayText
  | setHeadAngle
  | setLiftHeight
  | playAnim
  | playAnimTrigger
  | pickupObject
  | placeOnObject
  | placeObjectOnGroundHere
  | turnTowardsFace
  | goToPose
  | goToObject
  | turnInPlace
  | driveOffChargerContacts
  | driveStraight
  | displayOledFaceImage
  deriving DecidableEq, Repr

/-- Identity of one constructed action object: its class together with the
construction counter value at the moment the factory ran. -/
structure ActionRef where
  kind : ActionKind
  ctorIndex : Nat
  deriving DecidableEq, Repr

/-- The synchronous errors raised by the facade command methods:
`cozmo.exceptions.RobotBusy`, `cozmo.exceptions.NotPickupable`,
`cozmo.exceptions.CannotPlaceObjectsOnThis`, and the Python `ValueError`
raised by `play_anim`. -/
inductive CozmoError where
  | robotBusy
  | notPickupable
  | cannotPlaceObjectsOnThis
  | valueError
  deriving DecidableEq, Repr

/-- One submission accepted by the action dispatcher: the action and the
`in_parallel` / `num_retries` arguments it was submitted with. -/
structure Submission where
  act : ActionRef
  inParallel : Bool
  numRetries : Nat
  deriving DecidableEq, Repr

/-- The action dispatcher state: the set of actions currently in flight and
the append-only history of accepted submissions. -/
structure Dispatcher where
  inFlight : List Submission
  submissions : List Submission
  deriving DecidableEq, Repr

/-- Modelled from the spec: `_ActionDispatcher._send_single_action` lives in
`cozmo/action.py`, which is not part of the source tree.  Per spec sections
4.2 and 7, a submission with `in_parallel=False` while another non-parallel
action is in flight is rejected immediately with a busy condition and is
not queued; an accepted submission is tracked as in flight. -/
def Dispatcher.send_single_action (d : Dispatcher) (a : ActionRef)
    (in_parallel : Bool) (num_retries : Nat) : Except CozmoError Dispatcher :=
  if !in_parallel && d.inFlight.any (fun s => !s.inParallel) then
    Except.error CozmoError.robotBusy
  else
    Except.ok { inFlight := d.inFlight ++ [⟨a, in_parallel, num_retries⟩],
                submissions := d.submissions ++ [⟨a, in_parallel, num_retries⟩] }

/-- An observable world object as consumed by `pickup_object` /
`place_on_object`: the attributes those methods read. -/
structure ObservableObject where
  object_id : Nat
  pickupable : Bool
  place_objects_on_this : Bool
  deriving DecidableEq, Repr

/-- A seen face, as consumed by `turn_towards_face`. -/
structure Face where
  face_id : Nat
  deriving DecidableEq, Repr

/-- The `Robot` facade state: identity, the animation-name catalog exposed
through the connection (`self.conn.anim_names`), the action dispatcher, the
construction counter standing for the sequence of factory invocations, the
tracked current face-image action, and the state snapshot fields assigned
by `__init__` and replaced by `_recv_msg_robot_state`
(`robot.py` lines 557-626 and 868-891). -/
structure Robot where
  robotId : Nat
  animNames : List String
  dispatcher : Dispatcher
  actionsConstructed : Nat
  currentFaceImageAction : Option ActionRef
  pose : Option Pose
  poseAngle : Option ℚ
  posePitch : Option ℚ
  headAngle : Option ℚ
  leftWheelSpeed : Option ℚ
  rightWheelSpeed : Option ℚ
  liftHeight : Option ℚ
  batteryVoltage : Option ℚ
  accelerometer : Option Vector3
  gyro : Option Vector3
  carryingObjectId : Int
  carryingObjectOnTopId : Int
  headTrackingObjectId : Int
  localizedToObjectId : Int
  lastImageRobotTimestamp : Option Nat
  robotStatusFlags : Nat
  gameStatusFlags : Nat
  deriving DecidableEq, Repr

/-- `Robot._recv_msg_robot_state` (`robot.py` lines 868-891): replaces every
snapshot field with the freshly decoded value, then logs an error if the
message's `robotID` differs from the robot's own id (the message is still
processed and `self.robot_id` is not touched). -/
def Robot.recv_msg_robot_state (r : Robot) (msg : RobotStateMsg) :
    Robot × List LogEntry :=
  ({ r with
      pose := some ⟨msg.pose.x, msg.pose.y, msg.pose.z, msg.pose.q0,
                    msg.pose.q1, msg.pose.q2, msg.pose.q3, msg.pose.originID⟩,
      poseAngle := some msg.poseAngle_rad,
      posePitch := some msg.posePitch_rad,
      headAngle := some msg.headAngle_rad,
      leftWheelSpeed := some msg.leftWheelSpeed_mmps,
      rightWheelSpeed := some msg.rightWheelSpeed_mmps,
      liftHeight := some msg.liftHeight_mm,
      batteryVoltage := some msg.batteryVoltage,
      accelerometer := some ⟨msg.accel.x, msg.accel.y, msg.accel.z⟩,
      gyro := some ⟨msg.gyro.x, msg.gyro.y, msg.gyro.z⟩,
      carryingObjectId := msg.carryingObjectID,
      carryingObjectOnTopId := msg.carryingObjectOnTopID,
      headTrackingObjectId := msg.headTrackingObjectID,
      localizedToObjectId := msg.localizedToObjectID,
      lastImageRobotTimestamp := some msg.lastImageTimeStamp,
      robotStatusFlags := msg.status,
      gameStatusFlags := msg.gameStatus },
   if msg.robotID ≠ r.robotId then
     [⟨LogLevel.error, "robot ID changed mismatch"⟩]
   else
     [])

/-- Modelled from the spec: decoding of the wire message happens in the
transport layer (`cozmo/conn.py` and the generated clad bindings), which is
not part of the source tree.  Per spec section 4.4, a message that fails to
decode is discarded with a logged warning and the snapshot is left
unchanged; a decoded message is handed to `_recv_msg_robot_state`. -/
def Robot.handle_robot_state_event (r : Robot) (decoded : Option RobotStateMsg) :
    Robot × List LogEntry :=
  match decoded with
  | none => (r, [⟨LogLevel.warning, "discarding undecodable robot state message"⟩])
  | some msg => r.recv_msg_robot_state msg

/-- `Robot.recv_default_handler` (`robot.py` lines 849-850): logs the
unhandled event at debug severity and does nothing else. -/
def Robot.recv_default_handler (r : Robot) (eventName : String) :
    Robot × List LogEntry :=
  (r, [⟨LogLevel.debug, "Robot received unhandled public event " ++ eventName⟩])

/-- `Robot.is_moving` (`robot.py` line 695). -/
def Robot.is_moving (r : Robot) : Bool :=
  r.robotStatusFlags &&& RobotStatusFlag.IS_MOVING != 0

/-- `Robot.is_carrying_block` (`robot.py` line 700). -/
def Robot.is_carrying_block (r : Robot) : Bool :=
  r.robotStatusFlags &&& RobotStatusFlag.IS_CARRYING_BLOCK != 0

/-- `Robot.is_picking_or_placing` (`robot.py` line 705). -/
def Robot.is_picking_or_placing (r : Robot) : Bool :=
  r.robotStatusFlags &&& RobotStatusFlag.IS_PICKING_OR_PLACING != 0

/-- `Robot.is_picked_up` (`robot.py` line 710). -/
def Robot.is_picked_up (r : Robot) : Bool :=
  r.robotStatusFlags &&& RobotStatusFlag.IS_PICKED_UP != 0

/-- `Robot.is_falling` (`robot.py` line 715). -/
def Robot.is_falling (r : Robot) : Bool :=
  r.robotStatusFlags &&& RobotStatusFlag.IS_FALLING != 0

/-- `Robot.is_animating` (`robot.py` line 720). -/
def Robot.is_animating (r : Robot) : Bool :=
  r.robotStatusFlags &&& RobotStatusFlag.IS_ANIMATING != 0

/-- `Robot.is_animating_idle` (`robot.py` line 725). -/
def Robot.is_animating_idle (r : Robot) : Bool :=
  r.robotStatusFlags &&& RobotStatusFlag.IS_ANIMATING_IDLE != 0

/-- `Robot.is_pathing` (`robot.py` line 730). -/
def Robot.is_pathing (r : Robot) : Bool :=
  r.robotStatusFlags &&& RobotStatusFlag.IS_PATHING != 0

/-- `Robot.is_lift_in_pos` (`robot.py` line 735). -/
def Robot.is_lift_in_pos (r : Robot) : Bool :=
  r.robotStatusFlags &&& RobotStatusFlag.LIFT_IN_POS != 0

/-- `Robot.is_head_in_pos` (`robot.py` line 740). -/
def Robot.is_head_in_pos (r : Robot) : Bool :=
  r.robotStatusFlags &&& RobotStatusFlag.HEAD_IN_POS != 0

/-- `Robot.is_anim_buffer_full` (`robot.py` line 745). -/
def Robot.is_anim_buffer_full (r : Robot) : Bool :=
  r.robotStatusFlags &&& RobotStatusFlag.IS_ANIM_BUFFER_FULL != 0

/-- `Robot.is_on_charger` (`robot.py` line 750). -/
def Robot.is_on_charger (r : Robot) : Bool :=
  r.robotStatusFlags &&& RobotStatusFlag.IS_ON_CHARGER != 0

/-- `Robot.is_charging` (`robot.py` line 755). -/
def Robot.is_charging (r : Robot) : Bool :=
  r.robotStatusFlags &&& RobotStatusFlag.IS_CHARGING != 0

/-- `Robot.is_cliff_detected` (`robot.py` line 760). -/
def Robot.is_cliff_detected (r : Robot) : Bool :=
  r.robotStatusFlags &&& RobotStatusFlag.CLIFF_DETECTED != 0

/-- `Robot.are_wheels_moving` (`robot.py` line 765). -/
def Robot.are_wheels_moving (r : Robot) : Bool :=
  r.robotStatusFlags &&& RobotStatusFlag.ARE_WHEELS_MOVING != 0

/-- `Robot.is_localized` (`robot.py` line 770). -/
def Robot.is_localized (r : Robot) : Bool :=
  r.gameStatusFlags &&& GameStatusFlag.IsLocalized != 0

/-- A factory invocation: builds the action object for the given class and
advances the construction counter.  Stands for the
`self.<kind>_factory(..., conn=self.conn, robot=self, dispatch_parent=self)`
calls of the facade command methods. -/
def Robot.construct (r : Robot) (k : ActionKind) : ActionRef × Robot :=
  (⟨k, r.actionsConstructed⟩,
   { r with actionsConstructed := r.actionsConstructed + 1 })

/-- `Action.is_running` for a tracked action: the dispatcher still holds it
in flight. -/
def Robot.is_action_running (r : Robot) (a : ActionRef) : Bool :=
  r.dispatcher.inFlight.any (fun s => decide (s.act = a))

/-- `Action.abort` on a tracked action: the action leaves the in-flight
set. -/
def Robot.abort_action (r : Robot) (a : ActionRef) : Robot :=
  { r with dispatcher :=
      { r.dispatcher with
          inFlight := r.dispatcher.inFlight.filter (fun s => !decide (s.act = a)) } }

/-- The shared tail of every facade command method: invoke the factory once,
hand the constructed action to `_send_single_action` once with the given
`in_parallel` and `num_retries`, and return that action.  A busy rejection
propagates to the caller with nothing queued. -/
def Robot.submit_constructed (r : Robot) (k : ActionKind)
    (in_parallel : Bool) (num_retries : Nat) :
    Except CozmoError ActionRef × Robot :=
  let p := r.construct k
  match p.2.dispatcher.send_single_action p.1 in_parallel num_retries with
  | Except.error e => (Except.error e, p.2)
  | Except.ok d => (Except.ok p.1, { p.2 with dispatcher := d })

/-- `Robot.say_text` (`robot.py` lines 1031-1061). -/
def Robot.say_text (r : Robot) (text : String)
    (play_excited_animation : Bool) (use_cozmo_voice : Bool)
    (duration_scalar : ℚ) (voice_pitch : ℚ)
    (in_parallel : Bool) (num_retries : Nat) :
    Except CozmoError ActionRef × Robot :=
  r.submit_constructed ActionKind.sayText in_parallel num_retries

/-- `Robot.set_head_angle` (`robot.py` lines 1128-1156). -/
def Robot.set_head_angle (r : Robot) (angle : ℚ) (accel : ℚ) (max_speed : ℚ)
    (duration : ℚ) (in_parallel : Bool) (num_retries : Nat) :
    Except CozmoError ActionRef × Robot :=
  r.submit_constructed ActionKind.setHeadAngle in_parallel num_retries

/-- `Robot.set_lift_height` (`robot.py` lines 1158-1185). -/
def Robot.set_lift_height (r : Robot) (height : ℚ) (accel : ℚ)
    (max_speed : ℚ) (duration : ℚ) (in_parallel : Bool) (num_retries : Nat) :
    Except CozmoError ActionRef × Robot :=
  r.submit_constructed ActionKind.setLiftHeight in_parallel num_retries

/-- `Robot.play_anim` (`robot.py` lines 1190-1223): raises `ValueError`
before constructing anything if the name is not a known animation name. -/
def Robot.play_anim (r : Robot) (animName : String) (loop_count : Nat)
    (in_parallel : Bool) (num_retries : Nat) :
    Except CozmoError ActionRef × Robot :=
  if !r.animNames.contains animName then
    (Except.error CozmoError.valueError, r)
  else
    r.submit_constructed ActionKind.playAnim in_parallel num_retries

/-- `Robot.play_anim_trigger` (`robot.py` lines 1225-1255); the
`isinstance` check cannot fail in this typed model. -/
def Robot.play_anim_trigger (r : Robot) (triggerId : Nat) (loop_count : Nat)
    (in_parallel : Bool) (num_retries : Nat) :
    Except CozmoError ActionRef × Robot :=
  r.submit_constructed ActionKind.playAnimTrigger in_parallel num_retries

/-- `Robot.pickup_object` (`robot.py` lines 1403-1435): raises
`NotPickupable` before constructing anything if the object is not
pickupable. -/
def Robot.pickup_object (r : Robot) (obj : ObservableObject)
    (use_pre_dock_pose : Bool) (in_parallel : Bool) (num_retries : Nat) :
    Except CozmoError ActionRef × Robot :=
  if !obj.pickupable then
    (Except.error CozmoError.notPickupable, r)
  else
    r.submit_constructed ActionKind.pickupObject in_parallel num_retries

/-- `Robot.place_on_object` (`robot.py` lines 1437-1471): raises
`CannotPlaceObjectsOnThis` before constructing anything if objects cannot
be placed on the target. -/
def Robot.place_on_object (r : Robot) (obj : ObservableObject)
    (use_pre_dock_pose : Bool) (in_parallel : Bool) (num_retries : Nat) :
    Except CozmoError ActionRef × Robot :=
  if !obj.place_objects_on_this then
    (Except.error CozmoError.cannotPlaceObjectsOnThis, r)
  else
    r.submit_constructed ActionKind.placeOnObject in_parallel num_retries

/-- `Robot.place_object_on_ground_here` (`robot.py` lines 1473-1496). -/
def Robot.place_object_on_ground_here (r : Robot) (obj : ObservableObject)
    (in_parallel : Bool) (num_retries : Nat) :
    Except CozmoError ActionRef × Robot :=
  r.submit_constructed ActionKind.placeObjectOnGroundHere in_parallel num_retries

/-- `Robot.turn_towards_face` (`robot.py` lines 1501-1520). -/
def Robot.turn_towards_face (r : Robot) (face : Face)
    (in_parallel : Bool) (num_retries : Nat) :
    Except CozmoError ActionRef × Robot :=
  r.submit_constructed ActionKind.turnTowardsFace in_parallel num_retries

/-- `Robot.go_to_pose` (`robot.py` lines 1525-1557), with the default
`relative_to_robot=False` path. -/
def Robot.go_to_pose (r : Robot) (pose : Pose)
    (in_parallel : Bool) (num_retries : Nat) :
    Except CozmoError ActionRef × Robot :=
  r.submit_constructed ActionKind.goToPose in_parallel num_retries

/-- `Robot.go_to_object` (`robot.py` lines 1559-1587); the `isinstance`
check cannot fail in this typed model. -/
def Robot.go_to_object (r : Robot) (target_object : ObservableObject)
    (distance_from_object : ℚ) (in_parallel : Bool) (num_retries : Nat) :
    Except CozmoError ActionRef × Robot :=
  r.submit_constructed ActionKind.goToObject in_parallel num_retries

/-- `Robot.turn_in_place` (`robot.py` lines 1589-1610). -/
def Robot.turn_in_place (r : Robot) (angle : ℚ)
    (in_parallel : Bool) (num_retries : Nat) :
    Except CozmoError ActionRef × Robot :=
  r.submit_constructed ActionKind.turnInPlace in_parallel num_retries

/-- `Robot.drive_off_charger_contacts` (`robot.py` lines 1612-1635). -/
def Robot.drive_off_charger_contacts (r : Robot)
    (in_parallel : Bool) (num_retries : Nat) :
    Except CozmoError ActionRef × Robot :=
  r.submit_constructed ActionKind.driveOffChargerContacts in_parallel num_retries

/-- `Robot.drive_straight` (`robot.py` lines 1677-1708). -/
def Robot.drive_straight (r : Robot) (distance : ℚ) (speed : ℚ)
    (should_play_anim : Bool) (in_parallel : Bool) (num_retries : Nat) :
    Except CozmoError ActionRef × Robot :=
  r.submit_constructed ActionKind.driveStraight in_parallel num_retries

/-- `Robot.display_oled_face_image` (`robot.py` lines 1283-1318): aborts the
tracked current face-image action if it is still running, constructs the
new `DisplayOledFaceImage` action, records it as the current face-image
action, and submits it with the caller's `in_parallel` and a fixed
`num_retries=0` (the method has no `num_retries` parameter). -/
def Robot.display_oled_face_image (r : Robot) (screen_data : List Bool)
    (duration_ms : ℚ) (in_parallel : Bool) :
    Except CozmoError ActionRef × Robot :=
  let r0 :=
    match r.currentFaceImageAction with
    | some a => if r.is_action_running a then r.abort_action a else r
    | none => r
  let p := r0.construct ActionKind.displayOledFaceImage
  let r1 := { p.2 with currentFaceImageAction := some p.1 }
  match r1.dispatcher.send_single_action p.1 in_parallel 0 with
  | Except.error e => (Except.error e, r1)
  | Except.ok d => (Except.ok p.1, { r1 with dispatcher := d })

/-! Constants of `robot.py` lines 75-85.  Angles are modelled in degrees:
`util.degrees(-25)` and `util.degrees(44.5)`. -/

/-- `MIN_HEAD_ANGLE = util.degrees(-25)` (`robot.py` line 76). -/
def MIN_HEAD_ANGLE : ℚ := -25

/-- `MAX_HEAD_ANGLE = util.degrees(44.5)` (`robot.py` line 79). -/
def MAX_HEAD_ANGLE : ℚ := 89 / 2

/-- `MIN_LIFT_HEIGHT_MM = 32.0` (`robot.py` line 82). -/
def MIN_LIFT_HEIGHT_MM : ℚ := 32

/-- `MAX_LIFT_HEIGHT_MM = 92.0` (`robot.py` line 85). -/
def MAX_LIFT_HEIGHT_MM : ℚ := 92

/-- The fields stored by `SetHeadAngle.__init__` (`robot.py` lines
317-336). -/
structure SetHeadAngle where
  angle : ℚ
  max_speed : ℚ
  accel : ℚ
  duration : ℚ
  deriving DecidableEq, Repr

/-- `SetHeadAngle.__init__` (`robot.py` lines 317-336): the requested angle
is clamped into `[MIN_HEAD_ANGLE, MAX_HEAD_ANGLE]`, the other parameters
are stored unchanged. -/
def SetHeadAngle.make (angle : ℚ) (max_speed : ℚ) (accel : ℚ)
    (duration : ℚ) : SetHeadAngle :=
  { angle :=
      if angle < MIN_HEAD_ANGLE then MIN_HEAD_ANGLE
      else if angle > MAX_HEAD_ANGLE then MAX_HEAD_ANGLE
      else angle,
    max_speed := max_speed,
    accel := accel,
    duration := duration }

/-- The fields stored by `SetLiftHeight.__init__` (`robot.py` lines
356-375). -/
structure SetLiftHeight where
  lift_height_mm : ℚ
  max_speed : ℚ
  accel : ℚ
  duration : ℚ
  deriving DecidableEq, Repr

/-- `SetLiftHeight.__init__` (`robot.py` lines 356-375): the requested
height ratio is clamped into `[0, 1]` and mapped linearly onto
`[MIN_LIFT_HEIGHT_MM, MAX_LIFT_HEIGHT_MM]`. -/
def SetLiftHeight.make (height : ℚ) (max_speed : ℚ) (accel : ℚ)
    (duration : ℚ) : SetLiftHeight :=
  { lift_height_mm :=
      if height < 0 then MIN_LIFT_HEIGHT_MM
      else if height > 1 then MAX_LIFT_HEIGHT_MM
      else MIN_LIFT_HEIGHT_MM + height * (MAX_LIFT_HEIGHT_MM - MIN_LIFT_HEIGHT_MM),
    max_speed := max_speed,
    accel := accel,
    duration := duration }

/-- The robot-driving steps performed by `PerformOffChargerContext` and the
marker for the wrapped body starting to run. -/
inductive ChargerStep where
  | driveOffContactsAndWait
  | bodyRan
  | backupOntoCharger
  deriving DecidableEq, Repr, BEq

/-- An exception raised by Python code wrapped in the context manager. -/
inductive PyError where
  | timeoutError
  | otherError
  deriving DecidableEq, Repr

/-- `PerformOffChargerContext` (`robot.py` lines 429-444) run under the
`async with` statement semantics: `__aenter__` records whether the robot
was on the charger and, if so, drives off the contacts and awaits
completion before the body runs; `__aexit__` runs on every exit path,
backs up onto the charger exactly when the robot was on the charger at
entry, and returns `False`, so an exception raised by the body is
re-raised.  The result is the ordered trace of steps together with the
body's outcome as seen by the caller of the `with` block. -/
def PerformOffChargerContext.run (isOnChargerAtEntry : Bool)
    (body : Except PyError α) : List ChargerStep × Except PyError α :=
  let was_on_charger := isOnChargerAtEntry
  ((if was_on_charger then [ChargerStep.driveOffContactsAndWait] else []) ++
     [ChargerStep.bodyRan] ++
     (if was_on_charger then [ChargerStep.backupOntoCharger] else []),
   body)

/-- Outcome of one `run_timed_behavior` call: whether the behavior was
started, whether its `stop()` was invoked, and what error (if any) escaped
to the caller. -/
structure TimedBehaviorRun where
  started : Bool
  stopCalled : Bool
  raised : Option PyError
  deriving DecidableEq, Repr

/-- `Robot.run_timed_behavior` (`robot.py` lines 1351-1368): starts the
behavior, awaits `wait_for_completed(timeout=active_time)`, and catches
exactly `asyncio.TimeoutError`, calling `b.stop()` in that case; any other
outcome of the wait is passed through.  The wait's outcome is the
argument: `ok` if the behavior completed within `active_time`, otherwise
the error it raised. -/
def Robot.run_timed_behavior (waitOutcome : Except PyError Unit) :
    TimedBehaviorRun :=
  match waitOutcome with
  | Except.ok _ => { started := true, stopCalled := false, raised := none }
  | Except.error e =>
      if e = PyError.timeoutError then
        { started := true, stopCalled := true, raised := none }
      else
        { started := true, stopCalled := false, raised := some e }

/-- The result the spec prescribes for one facade command call (spec
section 6, "each validates arguments, constructs an Action via its
factory, and calls submit; returns the Action immediately"): exactly one
action built by the factory, exactly one submission carrying the caller's
`in_parallel` and `num_retries`, and that same action returned. -/
def specSingleSubmission (r : Robot) (k : ActionKind) (in_parallel : Bool)
    (num_retries : Nat) : Except CozmoError ActionRef × Robot :=
  (Except.ok ⟨k, r.actionsConstructed⟩,
   { r with
       actionsConstructed := r.actionsConstructed + 1,
       dispatcher :=
         { inFlight := r.dispatcher.inFlight ++
             [⟨⟨k, r.actionsConstructed⟩, in_parallel, num_retries⟩],
           submissions := r.dispatcher.submissions ++
             [⟨⟨k, r.actionsConstructed⟩, in_parallel, num_retries⟩] } })

/-- A dispatcher with nothing in flight and nothing submitted. -/
def emptyDispatcher : Dispatcher := ⟨[], []⟩

/-- A freshly initialized robot, as left by `Robot.__init__`
(`robot.py` lines 557-626). -/
def initialRobot : Robot :=
  { robotId := 1,
    animNames := ["anim_pounce_01"],
    dispatcher := emptyDispatcher,
    actionsConstructed := 0,
    currentFaceImageAction := none,
    pose := none,
    poseAngle := none,
    posePitch := none,
    headAngle := none,
    leftWheelSpeed := none,
    rightWheelSpeed := none,
    liftHeight := none,
    batteryVoltage := none,
    accelerometer := none,
    gyro := none,
    carryingObjectId := -1,
    carryingObjectOnTopId := -1,
    headTrackingObjectId := -1,
    localizedToObjectId := -1,
    lastImageRobotTimestamp := none,
    robotStatusFlags := 0,
    gameStatusFlags := 0 }

/-- A robot with one non-parallel drive-straight action still in flight. -/
def busyRobot : Robot :=
  { initialRobot with
      actionsConstructed := 1,
      dispatcher :=
        { inFlight := [⟨⟨ActionKind.driveStraight, 0⟩, false, 0⟩],
          submissions := [⟨⟨ActionKind.driveStraight, 0⟩, false, 0⟩] } }

/-- A robot with one face-image action in flight and tracked as the current
face-image action. -/
def faceRobot : Robot :=
  { initialRobot with
      actionsConstructed := 1,
      currentFaceImageAction := some ⟨ActionKind.displayOledFaceImage, 0⟩,
      dispatcher :=
        { inFlight := [⟨⟨ActionKind.displayOledFaceImage, 0⟩, true, 0⟩],
          submissions := [⟨⟨ActionKind.displayOledFaceImage, 0⟩, true, 0⟩] } }

/-- A sample decoded robot-state message. -/
def sampleStateMsg : RobotStateMsg :=
  { pose := ⟨10, 20, 0, 1, 0, 0, 0, 3⟩,
    poseAngle_rad := 1 / 2,
    posePitch_rad := -1 / 10,
    headAngle_rad := 1 / 5,
    leftWheelSpeed_mmps := 25,
    rightWheelSpeed_mmps := 30,
    liftHeight_mm := 40,
    batteryVoltage := 37 / 10,
    accel := ⟨0, 0, 7000⟩,
    gyro := ⟨0, 1, 0⟩,
    carryingObjectID := -1,
    carryingObjectOnTopID := -1,
    headTrackingObjectID := -1,
    localizedToObjectID := 5,
    lastImageTimeStamp := 123456,
    status := 0x801,
    gameStatus := 0x1,
    robotID := 2 }

/-- A cube-like object that can be picked up and carried objects placed on
it. -/
def cubeObject : ObservableObject :=
  { object_id := 7, pickupable := true, place_objects_on_this := true }

/-- A charger-like object that can be neither picked up nor have objects
placed on it. -/
def chargerObject : ObservableObject :=
  { object_id := 8, pickupable := false, place_objects_on_this := false }

/-- Claim C6 as stated, specialized to `display_oled_face_image`: reading
the claim's words, the method's submission carries a caller-chosen
`num_retries` value, so starting from a fresh robot every retry count
should be reachable.  (The source method has no `num_retries` parameter.) -/
def claimDisplayForwardsNumRetries : Prop :=
  ∀ nr : Nat, ∃ (sd : List Bool) (dm : ℚ) (ip : Bool),
    ((initialRobot.display_oled_face_image sd dm ip).2).dispatcher.submissions =
      [⟨⟨ActionKind.displayOledFaceImage, 0⟩, ip, nr⟩]

end Cozmo

namespace Cozmo

/-- Testing a single-bit mask against a word is testing that bit. -/
theorem and_pow_two_ne_zero_eq_testBit (n k : Nat) :
    (n &&& 2 ^ k != 0) = n.testBit k := by
  cases h : n.testBit k <;>
    simp [Nat.and_two_pow, h, pow_ne_zero]

/-- Version of `and_pow_two_ne_zero_eq_testBit` taking the mask as a
numeral. -/
theorem and_mask_eq_testBit (n m k : Nat) (hm : m = 2 ^ k) :
    (n &&& m != 0) = n.testBit k := by
  rw [hm, and_pow_two_ne_zero_eq_testBit]

/-- A submission is accepted whenever everything in flight is parallel,
and is then tracked and recorded. -/
theorem send_single_action_ok (d : Dispatcher) (a : ActionRef)
    (ip : Bool) (nr : Nat)
    (h : ∀ s ∈ d.inFlight, s.inParallel = true) :
    d.send_single_action a ip nr =
      Except.ok { inFlight := d.inFlight ++ [⟨a, ip, nr⟩],
                  submissions := d.submissions ++ [⟨a, ip, nr⟩] } := by
  have hany : d.inFlight.any (fun s => !s.inParallel) = false := by
    simp only [List.any_eq_false, Bool.not_eq_true']
    intro s hs
    simpa using h s hs
  unfold Dispatcher.send_single_action
  simp [hany]

/-- A parallel submission is always accepted. -/
theorem send_single_action_parallel_ok (d : Dispatcher) (a : ActionRef)
    (nr : Nat) :
    d.send_single_action a true nr =
      Except.ok { inFlight := d.inFlight ++ [⟨a, true, nr⟩],
                  submissions := d.submissions ++ [⟨a, true, nr⟩] } := by
  unfold Dispatcher.send_single_action
  simp

/-- A non-parallel submission is rejected busy while a non-parallel action
is in flight. -/
theorem send_single_action_busy (d : Dispatcher) (a : ActionRef) (nr : Nat)
    (s : Submission) (hs : s ∈ d.inFlight) (hp : s.inParallel = false) :
    d.send_single_action a false nr = Except.error CozmoError.robotBusy := by
  have hany : d.inFlight.any (fun x => !x.inParallel) = true :=
    List.any_eq_true.mpr ⟨s, hs, by simp [hp]⟩
  unfold Dispatcher.send_single_action
  simp [hany]

/-- The construct-and-submit tail of the facade commands realizes the
spec's single-submission contract when everything in flight is parallel. -/
theorem submit_constructed_ok (r : Robot) (k : ActionKind)
    (ip : Bool) (nr : Nat)
    (h : ∀ s ∈ r.dispatcher.inFlight, s.inParallel = true) :
    r.submit_constructed k ip nr = specSingleSubmission r k ip nr := by
  have hrw := send_single_action_ok r.dispatcher ⟨k, r.actionsConstructed⟩ ip nr h
  simp only [Robot.submit_constructed, Robot.construct, specSingleSubmission]
  rw [hrw]

/-- An action is running exactly when some in-flight entry carries it. -/
theorem is_action_running_iff (r : Robot) (a : ActionRef) :
    r.is_action_running a = true ↔ ∃ s ∈ r.dispatcher.inFlight, s.act = a := by
  simp [Robot.is_action_running, List.any_eq_true]

/-- A submission either fails busy or is appended to the in-flight set and
the submission history. -/
theorem send_single_action_cases (d : Dispatcher) (a : ActionRef)
    (ip : Bool) (nr : Nat) :
    d.send_single_action a ip nr = Except.error CozmoError.robotBusy ∨
    d.send_single_action a ip nr =
      Except.ok { inFlight := d.inFlight ++ [⟨a, ip, nr⟩],
                  submissions := d.submissions ++ [⟨a, ip, nr⟩] } := by
  unfold Dispatcher.send_single_action
  split
  · exact Or.inl rfl
  · exact Or.inr rfl

/-- C2: on every well-formed periodic robot-state message the handler
replaces every tracked snapshot field with the freshly decoded value, and
a message that fails to decode leaves every snapshot field unchanged and
is discarded with a logged warning. -/
theorem robot_state_snapshot_replacement (r : Robot) (msg : RobotStateMsg) :
    ((r.recv_msg_robot_state msg).1.pose =
        some ⟨msg.pose.x, msg.pose.y, msg.pose.z, msg.pose.q0, msg.pose.q1,
              msg.pose.q2, msg.pose.q3, msg.pose.originID⟩) ∧
    ((r.recv_msg_robot_state msg).1.poseAngle = some msg.poseAngle_rad) ∧
    ((r.recv_msg_robot_state msg).1.posePitch = some msg.posePitch_rad) ∧
    ((r.recv_msg_robot_state msg).1.headAngle = some msg.headAngle_rad) ∧
    ((r.recv_msg_robot_state msg).1.leftWheelSpeed =
        some msg.leftWheelSpeed_mmps) ∧
    ((r.recv_msg_robot_state msg).1.rightWheelSpeed =
        some msg.rightWheelSpeed_mmps) ∧
    ((r.recv_msg_robot_state msg).1.liftHeight = some msg.liftHeight_mm) ∧
    ((r.recv_msg_robot_state msg).1.batteryVoltage =
        some msg.batteryVoltage) ∧
    ((r.recv_msg_robot_state msg).1.accelerometer =
        some ⟨msg.accel.x, msg.accel.y, msg.accel.z⟩) ∧
    ((r.recv_msg_robot_state msg).1.gyro =
        some ⟨msg.gyro.x, msg.gyro.y, msg.gyro.z⟩) ∧
    ((r.recv_msg_robot_state msg).1.carryingObjectId =
        msg.carryingObjectID) ∧
    ((r.recv_msg_robot_state msg).1.carryingObjectOnTopId =
        msg.carryingObjectOnTopID) ∧
    ((r.recv_msg_robot_state msg).1.headTrackingObjectId =
        msg.headTrackingObjectID) ∧
    ((r.recv_msg_robot_state msg).1.localizedToObjectId =
        msg.localizedToObjectID) ∧
    ((r.recv_msg_robot_state msg).1.lastImageRobotTimestamp =
        some msg.lastImageTimeStamp) ∧
    ((r.recv_msg_robot_state msg).1.robotStatusFlags = msg.status) ∧
    ((r.recv_msg_robot_state msg).1.gameStatusFlags = msg.gameStatus) ∧
    (r.handle_robot_state_event (some msg) = r.recv_msg_robot_state msg) ∧
    ((r.handle_robot_state_event none).1 = r) ∧
    ((r.handle_robot_state_event none).2 =
        [⟨LogLevel.warning, "discarding undecodable robot state message"⟩]) := by
  refine ⟨rfl, rfl, rfl, rfl, rfl, rfl, rfl, rfl, rfl, rfl, rfl, rfl, rfl,
          rfl, rfl, rfl, rfl, rfl, rfl, rfl⟩

/-- C3: each exposed boolean status property of the robot tests exactly its
designated bit of the stored robot-status bitmask (and `is_localized` the
`IsLocalized` bit of the stored game-status bitmask). -/
theorem status_properties_test_designated_bits (r : Robot) :
    r.is_moving = r.robotStatusFlags.testBit 0 ∧
    r.is_carrying_block = r.robotStatusFlags.testBit 1 ∧
    r.is_picking_or_placing = r.robotStatusFlags.testBit 2 ∧
    r.is_picked_up = r.robotStatusFlags.testBit 3 ∧
    r.is_falling = r.robotStatusFlags.testBit 4 ∧
    r.is_animating = r.robotStatusFlags.testBit 5 ∧
    r.is_pathing = r.robotStatusFlags.testBit 6 ∧
    r.is_lift_in_pos = r.robotStatusFlags.testBit 7 ∧
    r.is_head_in_pos = r.robotStatusFlags.testBit 8 ∧
    r.is_anim_buffer_full = r.robotStatusFlags.testBit 9 ∧
    r.is_animating_idle = r.robotStatusFlags.testBit 10 ∧
    r.is_on_charger = r.robotStatusFlags.testBit 11 ∧
    r.is_charging = r.robotStatusFlags.testBit 12 ∧
    r.is_cliff_detected = r.robotStatusFlags.testBit 13 ∧
    r.are_wheels_moving = r.robotStatusFlags.testBit 14 ∧
    r.is_localized = r.gameStatusFlags.testBit 0 := by
  refine ⟨and_mask_eq_testBit _ _ 0 (by norm_num [RobotStatusFlag.IS_MOVING]),
          and_mask_eq_testBit _ _ 1 (by norm_num [RobotStatusFlag.IS_CARRYING_BLOCK]),
          and_mask_eq_testBit _ _ 2 (by norm_num [RobotStatusFlag.IS_PICKING_OR_PLACING]),
          and_mask_eq_testBit _ _ 3 (by norm_num [RobotStatusFlag.IS_PICKED_UP]),
          and_mask_eq_testBit _ _ 4 (by norm_num [RobotStatusFlag.IS_FALLING]),
          and_mask_eq_testBit _ _ 5 (by norm_num [RobotStatusFlag.IS_ANIMATING]),
          and_mask_eq_testBit _ _ 6 (by norm_num [RobotStatusFlag.IS_PATHING]),
          and_mask_eq_testBit _ _ 7 (by norm_num [RobotStatusFlag.LIFT_IN_POS]),
          and_mask_eq_testBit _ _ 8 (by norm_num [RobotStatusFlag.HEAD_IN_POS]),
          and_mask_eq_testBit _ _ 9 (by norm_num [RobotStatusFlag.IS_ANIM_BUFFER_FULL]),
          and_mask_eq_testBit _ _ 10 (by norm_num [RobotStatusFlag.IS_ANIMATING_IDLE]),
          and_mask_eq_testBit _ _ 11 (by norm_num [RobotStatusFlag.IS_ON_CHARGER]),
          and_mask_eq_testBit _ _ 12 (by norm_num [RobotStatusFlag.IS_CHARGING]),
          and_mask_eq_testBit _ _ 13 (by norm_num [RobotStatusFlag.CLIFF_DETECTED]),
          and_mask_eq_testBit _ _ 14 (by norm_num [RobotStatusFlag.ARE_WHEELS_MOVING]),
          and_mask_eq_testBit _ _ 0 (by norm_num [GameStatusFlag.IsLocalized])⟩

/-- C5: the off-charger context helper drives off the contacts before the
body runs exactly when the robot was on the charger at entry, drives back
onto the charger on every exit path exactly when it was on the charger at
entry, and never suppresses an exception raised by the body. -/
theorem perform_off_charger_restores {α : Type} (b : Bool)
    (body : Except PyError α) :
    (PerformOffChargerContext.run true body =
      ([ChargerStep.driveOffContactsAndWait, ChargerStep.bodyRan,
        ChargerStep.backupOntoCharger], body)) ∧
    (PerformOffChargerContext.run false body = ([ChargerStep.bodyRan], body)) ∧
    ((PerformOffChargerContext.run b body).1.contains
        ChargerStep.backupOntoCharger = b) ∧
    ((PerformOffChargerContext.run b body).2 = body) := by
  refine ⟨rfl, rfl, ?_, ?_⟩ <;> cases b <;> rfl

/-- C7: the default event handler only logs at debug severity and leaves
the robot unchanged, and a robot-state message whose `robotID` mismatches
is still fully processed, with only an error logged and `robot_id` itself
untouched. -/
theorem default_handler_and_mismatched_robot_id (r : Robot) (e : String)
    (msg : RobotStateMsg) (h : msg.robotID ≠ r.robotId) :
    ((r.recv_default_handler e).1 = r) ∧
    ((r.recv_default_handler e).2 =
      [⟨LogLevel.debug, "Robot received unhandled public event " ++ e⟩]) ∧
    ((r.recv_msg_robot_state msg).2 =
      [⟨LogLevel.error, "robot ID changed mismatch"⟩]) ∧
    ((r.recv_msg_robot_state msg).1.robotId = r.robotId) ∧
    ((r.recv_msg_robot_state msg).1 =
      (r.recv_msg_robot_state { msg with robotID := r.robotId }).1) := by
  refine ⟨rfl, rfl, ?_, rfl, rfl⟩
  simp [Robot.recv_msg_robot_state, h]

/-- Witness for `default_handler_and_mismatched_robot_id` at a concrete
robot and message with mismatched ids. -/
theorem default_handler_and_mismatched_robot_id_witness :
    ((initialRobot.recv_default_handler "EvtNewCameraImage").1 = initialRobot) ∧
    ((initialRobot.recv_default_handler "EvtNewCameraImage").2 =
      [⟨LogLevel.debug,
        "Robot received unhandled public event " ++ "EvtNewCameraImage"⟩]) ∧
    ((initialRobot.recv_msg_robot_state sampleStateMsg).2 =
      [⟨LogLevel.error, "robot ID changed mismatch"⟩]) ∧
    ((initialRobot.recv_msg_robot_state sampleStateMsg).1.robotId =
      initialRobot.robotId) ∧
    ((initialRobot.recv_msg_robot_state sampleStateMsg).1 =
      (initialRobot.recv_msg_robot_state
        { sampleStateMsg with robotID := initialRobot.robotId }).1) :=
  default_handler_and_mismatched_robot_id initialRobot "EvtNewCameraImage"
    sampleStateMsg (by decide)

/-- C8: `run_timed_behavior` starts the behavior; a timeout from the wait
is caught inside it, the behavior is stopped and no error escapes; a
completion within the allotted time leaves the behavior unstopped. -/
theorem run_timed_behavior_timeout_handling :
    (Robot.run_timed_behavior (Except.error PyError.timeoutError) =
      { started := true, stopCalled := true, raised := none }) ∧
    (Robot.run_timed_behavior (Except.ok ()) =
      { started := true, stopCalled := false, raised := none }) :=
  ⟨rfl, rfl⟩

/-- C9: a constructed `SetHeadAngle` stores an angle clamped into
`[MIN_HEAD_ANGLE, MAX_HEAD_ANGLE]`, out-of-range inputs landing on the
nearest bound and in-range inputs kept; a constructed `SetLiftHeight`
stores a height in `[MIN_LIFT_HEIGHT_MM, MAX_LIFT_HEIGHT_MM]`, with inputs
below 0 mapped to 32, above 1 to 92, and in `[0, 1]` linearly to
`32 + height * 60`. -/
theorem head_angle_and_lift_height_clamped (angle height ms ac du : ℚ) :
    (MIN_HEAD_ANGLE ≤ (SetHeadAngle.make angle ms ac du).angle ∧
      (SetHeadAngle.make angle ms ac du).angle ≤ MAX_HEAD_ANGLE) ∧
    (angle < MIN_HEAD_ANGLE →
      (SetHeadAngle.make angle ms ac du).angle = MIN_HEAD_ANGLE) ∧
    (angle > MAX_HEAD_ANGLE →
      (SetHeadAngle.make angle ms ac du).angle = MAX_HEAD_ANGLE) ∧
    (MIN_HEAD_ANGLE ≤ angle → angle ≤ MAX_HEAD_ANGLE →
      (SetHeadAngle.make angle ms ac du).angle = angle) ∧
    (MIN_LIFT_HEIGHT_MM ≤ (SetLiftHeight.make height ms ac du).lift_height_mm ∧
      (SetLiftHeight.make height ms ac du).lift_height_mm ≤ MAX_LIFT_HEIGHT_MM) ∧
    (height < 0 →
      (SetLiftHeight.make height ms ac du).lift_height_mm = MIN_LIFT_HEIGHT_MM) ∧
    (height > 1 →
      (SetLiftHeight.make height ms ac du).lift_height_mm = MAX_LIFT_HEIGHT_MM) ∧
    (0 ≤ height → height ≤ 1 →
      (SetLiftHeight.make height ms ac du).lift_height_mm =
        MIN_LIFT_HEIGHT_MM + height * 60) := by
  unfold SetHeadAngle.make SetLiftHeight.make
  unfold MIN_HEAD_ANGLE MAX_HEAD_ANGLE MIN_LIFT_HEIGHT_MM MAX_LIFT_HEIGHT_MM
  dsimp only
  refine ⟨?_, ?_, ?_, ?_, ?_, ?_, ?_, ?_⟩
  · split_ifs with h1 h2 <;> constructor <;> linarith
  · intro h; simp [h]
  · intro h
    have h1 : ¬ angle < (-25 : ℚ) := by linarith
    simp [h1, h]
  · intro h1 h2
    have h1a : ¬ angle < (-25 : ℚ) := by linarith
    have h2a : ¬ angle > (89 / 2 : ℚ) := by linarith
    simp [h1a, h2a]
  · split_ifs with h1 h2 <;> constructor <;> nlinarith
  · intro h; simp [h]
  · intro h
    have h1 : ¬ height < (0 : ℚ) := by linarith
    simp [h1, h]
  · intro h1 h2
    have h1a : ¬ height < (0 : ℚ) := by linarith
    have h2a : ¬ height > (1 : ℚ) := by linarith
    rw [if_neg h1a, if_neg h2a]
    norm_num

/-- Witness for `head_angle_and_lift_height_clamped`: a below-range head
angle is clamped up to the minimum and an in-range lift height is mapped
linearly. -/
theorem head_angle_and_lift_height_clamped_witness :
    ((SetHeadAngle.make (-30) 10 10 0).angle = MIN_HEAD_ANGLE) ∧
    ((SetLiftHeight.make (1 / 2) 10 10 0).lift_height_mm =
      MIN_LIFT_HEIGHT_MM + (1 / 2) * 60) :=
  ⟨(head_angle_and_lift_height_clamped (-30) (1 / 2) 10 10 0).2.1
     (by norm_num [MIN_HEAD_ANGLE]),
   (head_angle_and_lift_height_clamped (-30) (1 / 2) 10 10 0).2.2.2.2.2.2.2
     (by norm_num) (by norm_num)⟩

/-- C4: a command called with a malformed argument raises synchronously
before any action is constructed or submitted: `pickup_object` on a
non-pickupable object raises `NotPickupable`, `place_on_object` on an
object that cannot carry others raises `CannotPlaceObjectsOnThis`, and
`play_anim` with an unknown animation name raises `ValueError`; in each
case the robot (construction counter and dispatcher included) is
unchanged. -/
theorem invalid_arguments_rejected_synchronously (r : Robot)
    (obj1 obj2 : ObservableObject) (animName : String)
    (upd ip : Bool) (nr lc : Nat)
    (h1 : obj1.pickupable = false)
    (h2 : obj2.place_objects_on_this = false)
    (h3 : r.animNames.contains animName = false) :
    (r.pickup_object obj1 upd ip nr =
      (Except.error CozmoError.notPickupable, r)) ∧
    (r.place_on_object obj2 upd ip nr =
      (Except.error CozmoError.cannotPlaceObjectsOnThis, r)) ∧
    (r.play_anim animName lc ip nr =
      (Except.error CozmoError.valueError, r)) := by
  have h3m : animName ∉ r.animNames := by simpa using h3
  refine ⟨?_, ?_, ?_⟩
  · simp [Robot.pickup_object, h1]
  · simp [Robot.place_on_object, h2]
  · simp [Robot.play_anim, h3m]

/-- Witness for `invalid_arguments_rejected_synchronously`: picking up the
charger, placing on the charger, and playing an unknown animation name all
fail synchronously on a fresh robot, which is left unchanged. -/
theorem invalid_arguments_rejected_synchronously_witness :
    (initialRobot.pickup_object chargerObject true false 0 =
      (Except.error CozmoError.notPickupable, initialRobot)) ∧
    (initialRobot.place_on_object chargerObject true false 0 =
      (Except.error CozmoError.cannotPlaceObjectsOnThis, initialRobot)) ∧
    (initialRobot.play_anim "no_such_anim" 1 false 0 =
      (Except.error CozmoError.valueError, initialRobot)) :=
  invalid_arguments_rejected_synchronously initialRobot chargerObject
    chargerObject "no_such_anim" true false 0 1 rfl rfl (by decide)

/-- C1: while a non-parallel action is in flight, a second non-parallel
facade submission (here `say_text`) fails synchronously with the busy
condition and queues nothing, while the same submission with
`in_parallel=True` is accepted and both actions are tracked concurrently. -/
theorem serial_submission_busy_parallel_accepted (r : Robot) (text : String)
    (pea ucv : Bool) (ds vp : ℚ) (nr : Nat) (s : Submission)
    (hs : s ∈ r.dispatcher.inFlight) (hp : s.inParallel = false) :
    ((r.say_text text pea ucv ds vp false nr).1 =
      Except.error CozmoError.robotBusy) ∧
    ((r.say_text text pea ucv ds vp false nr).2.dispatcher = r.dispatcher) ∧
    ((r.say_text text pea ucv ds vp true nr).1 =
      Except.ok ⟨ActionKind.sayText, r.actionsConstructed⟩) ∧
    (s ∈ (r.say_text text pea ucv ds vp true nr).2.dispatcher.inFlight) ∧
    ((⟨⟨ActionKind.sayText, r.actionsConstructed⟩, true, nr⟩ : Submission) ∈
      (r.say_text text pea ucv ds vp true nr).2.dispatcher.inFlight) := by
  have hbusy := send_single_action_busy r.dispatcher
    ⟨ActionKind.sayText, r.actionsConstructed⟩ nr s hs hp
  have hok := send_single_action_parallel_ok r.dispatcher
    ⟨ActionKind.sayText, r.actionsConstructed⟩ nr
  refine ⟨?_, ?_, ?_, ?_, ?_⟩
  · simp only [Robot.say_text, Robot.submit_constructed, Robot.construct]
    rw [hbusy]
  · simp only [Robot.say_text, Robot.submit_constructed, Robot.construct]
    rw [hbusy]
  · simp only [Robot.say_text, Robot.submit_constructed, Robot.construct]
    rw [hok]
  · simp only [Robot.say_text, Robot.submit_constructed, Robot.construct]
    rw [hok]
    exact List.mem_append_left _ hs
  · simp only [Robot.say_text, Robot.submit_constructed, Robot.construct]
    rw [hok]
    exact List.mem_append_right _ (List.mem_singleton.mpr rfl)

/-- Witness for `serial_submission_busy_parallel_accepted` on a robot with
a non-parallel drive-straight action in flight. -/
theorem serial_submission_busy_parallel_accepted_witness :
    ((busyRobot.say_text "hi" false true 2 0 false 0).1 =
      Except.error CozmoError.robotBusy) ∧
    ((busyRobot.say_text "hi" false true 2 0 false 0).2.dispatcher =
      busyRobot.dispatcher) ∧
    ((busyRobot.say_text "hi" false true 2 0 true 0).1 =
      Except.ok ⟨ActionKind.sayText, busyRobot.actionsConstructed⟩) ∧
    ((⟨⟨ActionKind.driveStraight, 0⟩, false, 0⟩ : Submission) ∈
      (busyRobot.say_text "hi" false true 2 0 true 0).2.dispatcher.inFlight) ∧
    ((⟨⟨ActionKind.sayText, busyRobot.actionsConstructed⟩, true, 0⟩ : Submission) ∈
      (busyRobot.say_text "hi" false true 2 0 true 0).2.dispatcher.inFlight) :=
  serial_submission_busy_parallel_accepted busyRobot "hi" false true 2 0 0
    ⟨⟨ActionKind.driveStraight, 0⟩, false, 0⟩ (by decide) rfl

/-- C6 (amended): whenever its validation passes and the dispatcher holds
only parallel actions in flight, every facade command method constructs
exactly one action via its factory, submits it exactly once with the
caller's `in_parallel` and `num_retries`, and returns that same action —
except `display_oled_face_image`, which takes no `num_retries` parameter
and always submits with `num_retries=0` (it still uses the caller's
`in_parallel` and returns the single action it constructs). -/
theorem facade_commands_single_submission (r : Robot)
    (text : String) (pea ucv : Bool) (ds vp : ℚ)
    (angle accel ms du height : ℚ)
    (animName : String) (lc trig : Nat)
    (obj1 obj2 obj3 obj4 : ObservableObject) (upd : Bool)
    (face : Face) (pose : Pose) (dist ang2 dist2 spd : ℚ) (spa : Bool)
    (sd : List Bool) (dm : ℚ) (ip : Bool) (nr : Nat)
    (hpar : ∀ s ∈ r.dispatcher.inFlight, s.inParallel = true)
    (hpick : obj1.pickupable = true)
    (hplace : obj2.place_objects_on_this = true)
    (hanim : animName ∈ r.animNames)
    (hface : r.currentFaceImageAction = none) :
    (r.say_text text pea ucv ds vp ip nr =
      specSingleSubmission r ActionKind.sayText ip nr) ∧
    (r.set_head_angle angle accel ms du ip nr =
      specSingleSubmission r ActionKind.setHeadAngle ip nr) ∧
    (r.set_lift_height height accel ms du ip nr =
      specSingleSubmission r ActionKind.setLiftHeight ip nr) ∧
    (r.play_anim animName lc ip nr =
      specSingleSubmission r ActionKind.playAnim ip nr) ∧
    (r.play_anim_trigger trig lc ip nr =
      specSingleSubmission r ActionKind.playAnimTrigger ip nr) ∧
    (r.pickup_object obj1 upd ip nr =
      specSingleSubmission r ActionKind.pickupObject ip nr) ∧
    (r.place_on_object obj2 upd ip nr =
      specSingleSubmission r ActionKind.placeOnObject ip nr) ∧
    (r.place_object_on_ground_here obj3 ip nr =
      specSingleSubmission r ActionKind.placeObjectOnGroundHere ip nr) ∧
    (r.turn_towards_face face ip nr =
      specSingleSubmission r ActionKind.turnTowardsFace ip nr) ∧
    (r.go_to_pose pose ip nr =
      specSingleSubmission r ActionKind.goToPose ip nr) ∧
    (r.go_to_object obj4 dist ip nr =
      specSingleSubmission r ActionKind.goToObject ip nr) ∧
    (r.turn_in_place ang2 ip nr =
      specSingleSubmission r ActionKind.turnInPlace ip nr) ∧
    (r.drive_off_charger_contacts ip nr =
      specSingleSubmission r ActionKind.driveOffChargerContacts ip nr) ∧
    (r.drive_straight dist2 spd spa ip nr =
      specSingleSubmission r ActionKind.driveStraight ip nr) ∧
    (r.display_oled_face_image sd dm ip =
      (Except.ok ⟨ActionKind.displayOledFaceImage, r.actionsConstructed⟩,
       { r with
           actionsConstructed := r.actionsConstructed + 1,
           currentFaceImageAction :=
             some ⟨ActionKind.displayOledFaceImage, r.actionsConstructed⟩,
           dispatcher :=
             { inFlight := r.dispatcher.inFlight ++
                 [⟨⟨ActionKind.displayOledFaceImage, r.actionsConstructed⟩, ip, 0⟩],
               submissions := r.dispatcher.submissions ++
                 [⟨⟨ActionKind.displayOledFaceImage, r.actionsConstructed⟩, ip, 0⟩] } })) := by
  have hc : r.animNames.contains animName = true := by simpa using hanim
  refine ⟨submit_constructed_ok r _ ip nr hpar,
          submit_constructed_ok r _ ip nr hpar,
          submit_constructed_ok r _ ip nr hpar,
          ?_, submit_constructed_ok r _ ip nr hpar,
          ?_, ?_,
          submit_constructed_ok r _ ip nr hpar,
          submit_constructed_ok r _ ip nr hpar,
          submit_constructed_ok r _ ip nr hpar,
          submit_constructed_ok r _ ip nr hpar,
          submit_constructed_ok r _ ip nr hpar,
          submit_constructed_ok r _ ip nr hpar,
          submit_constructed_ok r _ ip nr hpar,
          ?_⟩
  · rw [Robot.play_anim, hc]
    simpa using submit_constructed_ok r ActionKind.playAnim ip nr hpar
  · rw [Robot.pickup_object, hpick]
    simpa using submit_constructed_ok r ActionKind.pickupObject ip nr hpar
  · rw [Robot.place_on_object, hplace]
    simpa using submit_constructed_ok r ActionKind.placeOnObject ip nr hpar
  · have hok := send_single_action_ok r.dispatcher
      ⟨ActionKind.displayOledFaceImage, r.actionsConstructed⟩ ip 0 hpar
    simp only [Robot.display_oled_face_image, hface, Robot.construct]
    rw [hok]

/-- Witness for `facade_commands_single_submission` on a fresh robot:
`say_text` performs a single submission carrying the caller's arguments,
and `display_oled_face_image` performs a single submission with retry
count zero. -/
theorem facade_commands_single_submission_witness :
    (initialRobot.say_text "hi" false true 2 0 true 3 =
      specSingleSubmission initialRobot ActionKind.sayText true 3) ∧
    (initialRobot.display_oled_face_image [] 100 true =
      (Except.ok ⟨ActionKind.displayOledFaceImage,
                  initialRobot.actionsConstructed⟩,
       { initialRobot with
           actionsConstructed := initialRobot.actionsConstructed + 1,
           currentFaceImageAction :=
             some ⟨ActionKind.displayOledFaceImage,
                   initialRobot.actionsConstructed⟩,
           dispatcher :=
             { inFlight := initialRobot.dispatcher.inFlight ++
                 [⟨⟨ActionKind.displayOledFaceImage,
                    initialRobot.actionsConstructed⟩, true, 0⟩],
               submissions := initialRobot.dispatcher.submissions ++
                 [⟨⟨ActionKind.displayOledFaceImage,
                    initialRobot.actionsConstructed⟩, true, 0⟩] } })) := by
  have H := facade_commands_single_submission initialRobot "hi" false true 2 0
    1 1 1 1 1 "anim_pounce_01" 1 1 cubeObject cubeObject cubeObject cubeObject
    true ⟨1⟩ ⟨0, 0, 0, 1, 0, 0, 0, 0⟩ 1 1 1 1 true [] 100 true 3
    (by intro s hs; simp [initialRobot, emptyDispatcher] at hs) rfl rfl
    (by decide) rfl
  exact ⟨H.1, H.2.2.2.2.2.2.2.2.2.2.2.2.2.2⟩

/-- C6 counterexample: the claim as stated also asserts that
`display_oled_face_image` submits with the caller's `num_retries`
argument; the method has no such parameter and every call from a fresh
robot records retry count zero, so a submission carrying retry count one
is unreachable. -/
theorem display_num_retries_not_forwardable : ¬ claimDisplayForwardsNumRetries := by
  intro h
  obtain ⟨sd, dm, ip, h1⟩ := h 1
  have h2 : ((initialRobot.display_oled_face_image sd dm ip).2).dispatcher.submissions =
      [⟨⟨ActionKind.displayOledFaceImage, 0⟩, ip, 0⟩] := by
    simp [Robot.display_oled_face_image, Robot.construct, initialRobot,
          emptyDispatcher, Dispatcher.send_single_action]
  rw [h2] at h1
  simp at h1

/-- C10: after any `display_oled_face_image` call on a robot whose tracked
current face-image action `a0` was constructed earlier and is the only
face-image action possibly running, the newly constructed action is the
tracked current face-image action, `a0` is no longer running, and the only
face-image action that can still be running is the new one. -/
theorem single_face_image_action (r : Robot) (sd : List Bool) (dm : ℚ)
    (ip : Bool) (a0 : ActionRef)
    (h0 : r.currentFaceImageAction = some a0)
    (hidx : a0.ctorIndex < r.actionsConstructed)
    (hinv : ∀ b : ActionRef, r.is_action_running b = true →
        b.kind = ActionKind.displayOledFaceImage → b = a0) :
    ((r.display_oled_face_image sd dm ip).2.currentFaceImageAction =
      some ⟨ActionKind.displayOledFaceImage, r.actionsConstructed⟩) ∧
    ((r.display_oled_face_image sd dm ip).2.is_action_running a0 = false) ∧
    (∀ b : ActionRef,
      (r.display_oled_face_image sd dm ip).2.is_action_running b = true →
      b.kind = ActionKind.displayOledFaceImage →
      b = ⟨ActionKind.displayOledFaceImage, r.actionsConstructed⟩) := by
  have hne : (⟨ActionKind.displayOledFaceImage, r.actionsConstructed⟩ : ActionRef) ≠ a0 := by
    intro he
    have hci := congrArg ActionRef.ctorIndex he
    simp only at hci
    omega
  have hnot : r.is_action_running a0 = true →
      ∀ s ∈ r.dispatcher.inFlight.filter (fun s => !decide (s.act = a0)),
        s ∈ r.dispatcher.inFlight ∧ s.act ≠ a0 := by
    intro _ s hs
    rw [List.mem_filter] at hs
    refine ⟨hs.1, ?_⟩
    simpa using hs.2
  have key : ∃ fl : List Submission,
      (r.display_oled_face_image sd dm ip).2.currentFaceImageAction =
        some ⟨ActionKind.displayOledFaceImage, r.actionsConstructed⟩ ∧
      (r.display_oled_face_image sd dm ip).2.dispatcher.inFlight = fl ∧
      ∀ s ∈ fl, (s ∈ r.dispatcher.inFlight ∧ s.act ≠ a0) ∨
        s = ⟨⟨ActionKind.displayOledFaceImage, r.actionsConstructed⟩, ip, 0⟩ := by
    simp only [Robot.display_oled_face_image, h0, Robot.construct]
    by_cases hrun : r.is_action_running a0 = true
    · simp only [hrun, if_true, Robot.abort_action]
      rcases send_single_action_cases
          ⟨r.dispatcher.inFlight.filter (fun s => !decide (s.act = a0)),
           r.dispatcher.submissions⟩
          ⟨ActionKind.displayOledFaceImage, r.actionsConstructed⟩ ip 0 with
        hsend | hsend <;> rw [hsend]
      · refine ⟨_, rfl, rfl, ?_⟩
        intro s hs
        exact Or.inl (hnot hrun s hs)
      · refine ⟨_, rfl, rfl, ?_⟩
        intro s hs
        rcases List.mem_append.mp hs with h | h
        · exact Or.inl (hnot hrun s h)
        · exact Or.inr (List.mem_singleton.mp h)
    · rw [Bool.not_eq_true] at hrun
      simp only [hrun, Bool.false_eq_true, if_false]
      have hnone : ∀ s ∈ r.dispatcher.inFlight, s.act ≠ a0 := by
        intro s hs heq
        have hcontra : r.is_action_running a0 = true :=
          (is_action_running_iff r a0).mpr ⟨s, hs, heq⟩
        rw [hrun] at hcontra
        exact Bool.false_ne_true hcontra
      rcases send_single_action_cases r.dispatcher
          ⟨ActionKind.displayOledFaceImage, r.actionsConstructed⟩ ip 0 with
        hsend | hsend <;> rw [hsend]
      · exact ⟨_, rfl, rfl, fun s hs => Or.inl ⟨hs, hnone s hs⟩⟩
      · refine ⟨_, rfl, rfl, ?_⟩
        intro s hs
        rcases List.mem_append.mp hs with h | h
        · exact Or.inl ⟨h, hnone s h⟩
        · exact Or.inr (List.mem_singleton.mp h)
  obtain ⟨fl, hcur, hfl, hprop⟩ := key
  refine ⟨hcur, ?_, ?_⟩
  · simp only [Robot.is_action_running, hfl, List.any_eq_false]
    intro s hs
    simp only [decide_eq_true_eq]
    intro heq
    rcases hprop s hs with ⟨_, hx⟩ | hx
    · exact hx heq
    · subst hx
      exact hne heq
  · intro b hb hk
    obtain ⟨s, hs, hact⟩ := (is_action_running_iff _ b).mp hb
    rw [hfl] at hs
    rcases hprop s hs with ⟨hmem, hnea⟩ | hx
    · have hb0 := hinv b ((is_action_running_iff r b).mpr ⟨s, hmem, hact⟩) hk
      rw [hb0] at hact
      exact absurd hact hnea
    · subst hx
      simp only at hact
      exact hact.symm

/-- Witness for `single_face_image_action` on a robot whose tracked
face-image action is in flight: the call replaces it and leaves it no
longer running. -/
theorem single_face_image_action_witness :
    ((faceRobot.display_oled_face_image [] 100 true).2.currentFaceImageAction =
      some ⟨ActionKind.displayOledFaceImage, faceRobot.actionsConstructed⟩) ∧
    ((faceRobot.display_oled_face_image [] 100 true).2.is_action_running
      ⟨ActionKind.displayOledFaceImage, 0⟩ = false) := by
  have H := single_face_image_action faceRobot [] 100 true
    ⟨ActionKind.displayOledFaceImage, 0⟩ rfl (by decide)
    (by
      intro b hb _
      obtain ⟨s, hs, hact⟩ := (is_action_running_iff faceRobot b).mp hb
      simp only [faceRobot, initialRobot, List.mem_singleton] at hs
      rw [hs] at hact
      exact hact.symm)
  exact ⟨H.1, H.2.1⟩

end Cozmo
